import Mathlib

/-!
Verification of the pglog extension (event spooler and multi-file scan
engine) against its design specification.

The development shallowly embeds the C sources:

- src/pglog_spool.c : event formatting (fmtLogLine, appendCSVLiteral,
  is_log_level_output, error_severity), the spool-file state machine
  (openSpoolfile, rotateSpoolfile, pglog_emit_log_hook);
- src/pglog_helpers.c : file discovery (initLogFileNames) and the size
  estimator (estimate_size);
- src/pglog.c : the foreign-scan cursor (pglogBeginForeignScan,
  pglogIterateForeignScan).

Strings are embedded as List Char; machine integers as Int or Nat (no
value in these claims approaches an overflow boundary); OS interaction
(fopen, fwrite, fclose, directory enumeration, strftime output) is
embedded as explicit environment parameters describing the outcome the
OS delivers for each call.
-/

set_option autoImplicit false
set_option maxRecDepth 4000

namespace Pglog

/-! ## Constants

Severity codes from the PostgreSQL 9.x elog.h consumed by the sources,
and build constants (BLCKSZ, MAXIMUM_ALIGNOF, sizeof HeapTupleHeaderData)
for the standard configuration the extension is compiled against. -/

def DEBUG5 : Int := 10
def DEBUG4 : Int := 11
def DEBUG3 : Int := 12
def DEBUG2 : Int := 13
def DEBUG1 : Int := 14
def LOG_LEVEL : Int := 15
def COMMERROR : Int := 16
def INFO : Int := 17
def NOTICE : Int := 18
def WARNING : Int := 19
def ERROR_LEVEL : Int := 20
def FATAL : Int := 21
def PANIC : Int := 22

/-- src/pglog_helpers.h line 29: maximum number of log files to be read. -/
def MAX_LOG_FILES : Nat := 16

/-! ## CSV cell formatting (src/pglog_spool.c lines 255-273)

appendCSVLiteral appends nothing for a NULL pointer; otherwise it writes
an opening quote, the data with every embedded quote doubled, and a
closing quote. -/

/-- The while loop of appendCSVLiteral (src/pglog_spool.c lines 266-271):
copy each character, emitting an extra quote before an embedded quote. -/
def appendCSVLiteralLoop : List Char → List Char
  | [] => []
  | c :: rest =>
    if c = '"' then '"' :: c :: appendCSVLiteralLoop rest
    else c :: appendCSVLiteralLoop rest

/-- appendCSVLiteral (src/pglog_spool.c lines 255-273): NULL appends
nothing (an absent value is a fully empty cell); otherwise the value is
quote-delimited with embedded quotes doubled. -/
def appendCSVLiteral : Option (List Char) → List Char
  | none => []
  | some s => '"' :: (appendCSVLiteralLoop s ++ [ '"' ])

/-- Modelled from the spec: cell parsing is performed by the PostgreSQL
COPY machinery (BeginCopyFrom/NextCopyFrom), which is an external
collaborator, not code of this repository.  Spec wording: undoubling
quotes, stripping delimiters.  This undoubles each doubled quote. -/
def csvUndouble : List Char → List Char
  | [] => []
  | [c] => [c]
  | c₁ :: c₂ :: rest =>
    if c₁ = '"' ∧ c₂ = '"' then '"' :: csvUndouble rest
    else c₁ :: csvUndouble (c₂ :: rest)
termination_by l => l.length
decreasing_by
  · simp; omega
  · simp

/-- Modelled from the spec: parse one quoted text cell by stripping the
leading and trailing quote delimiter and undoubling embedded quotes. -/
def parseCSVCell (cell : List Char) : Option (List Char) :=
  match cell with
  | '"' :: rest =>
    if rest.getLast? = some '"' then some (csvUndouble rest.dropLast)
    else none
  | _ => none

theorem csvUndouble_quote_quote (rest : List Char) :
    csvUndouble ( '"' :: '"' :: rest) = '"' :: csvUndouble rest := by
  simp [csvUndouble]

theorem csvUndouble_cons_ne (c : Char) (l : List Char) (h : c ≠ '"') :
    csvUndouble (c :: l) = c :: csvUndouble l := by
  cases l with
  | nil => simp [csvUndouble]
  | cons d t => simp [csvUndouble, h]

theorem csvUndouble_appendCSVLiteralLoop (s : List Char) :
    csvUndouble (appendCSVLiteralLoop s) = s := by
  induction s with
  | nil => simp [appendCSVLiteralLoop, csvUndouble]
  | cons c t ih =>
    by_cases hc : c = '"'
    · subst hc
      show csvUndouble (if ( '"' : Char) = '"' then '"' :: '"' :: appendCSVLiteralLoop t
        else '"' :: appendCSVLiteralLoop t) = '"' :: t
      rw [if_pos rfl, csvUndouble_quote_quote, ih]
    · simp only [appendCSVLiteralLoop, if_neg hc]
      rw [csvUndouble_cons_ne c _ hc, ih]

/-- C6: formatting any text value as a quoted cell (quote-delimited, each
embedded quote doubled, src/pglog_spool.c appendCSVLiteral) and then
parsing the cell (undoubling quotes, stripping delimiters, as the spec
describes the read side) recovers the original value exactly; this holds
in particular for values containing embedded quotes, commas and
newlines. -/
theorem csv_cell_round_trip (s : List Char) :
    parseCSVCell (appendCSVLiteral (some s)) = some s := by
  show parseCSVCell ( '"' :: (appendCSVLiteralLoop s ++ [ '"' ])) = some s
  simp [parseCSVCell, List.getLast?_concat, List.dropLast_concat,
    csvUndouble_appendCSVLiteralLoop]

/-! ## File catalog (src/pglog_helpers.c lines 249-297)

initLogFileNames enumerates the log directory (AllocateDir/ReadDir, an
external collaborator whose enumeration order we take as an input list),
keeps the entries whose name is longer than 4 characters and ends in
".csv", prefixes them with the directory and a slash, and stops as soon
as MAX_LOG_FILES names have been collected. -/

/-- The suffix test of src/pglog_helpers.c line 276:
length > 4 and the last four characters are ".csv". -/
def isCSVName (de : List Char) : Bool :=
  decide (4 < de.length) && decide (de.drop (de.length - 4) = [ '.', 'c', 's', 'v' ])

/-- The ReadDir while loop of src/pglog_helpers.c lines 271-290, with the
running index i counting the names collected so far; after a name is
stored the loop breaks once i reaches MAX_LOG_FILES. -/
def initLogFileNamesLoop (dir : List Char) : List (List Char) → Nat → List (List Char)
  | [], _ => []
  | de :: rest, i =>
    if isCSVName de then
      let filename := dir ++ '/' :: de
      if i + 1 = MAX_LOG_FILES then [filename]
      else filename :: initLogFileNamesLoop dir rest (i + 1)
    else
      if i = MAX_LOG_FILES then [] else initLogFileNamesLoop dir rest i

/-- initLogFileNames (src/pglog_helpers.c lines 249-297).  The directory
is the Log_directory global and the entries are what ReadDir yields, in
enumeration order.  The C code returns a MAX_LOG_FILES element array
padded with NULLs; we return the list of the non-NULL entries. -/
def initLogFileNames (dir : List Char) (entries : List (List Char)) : List (List Char) :=
  initLogFileNamesLoop dir entries 0

theorem initLogFileNamesLoop_eq (dir : List Char) (entries : List (List Char)) :
    ∀ i : Nat, i < MAX_LOG_FILES →
      initLogFileNamesLoop dir entries i =
        ((entries.filter isCSVName).take (MAX_LOG_FILES - i)).map
          (fun de => dir ++ '/' :: de) := by
  induction entries with
  | nil => intro i _; simp [initLogFileNamesLoop]
  | cons de rest ih =>
    intro i hi
    by_cases hde : isCSVName de
    · simp only [initLogFileNamesLoop, if_pos hde, List.filter_cons, hde, ite_true]
      have htake : (MAX_LOG_FILES - i) = (MAX_LOG_FILES - (i + 1)) + 1 := by omega
      rw [htake, List.take_succ_cons, List.map_cons]
      by_cases hlast : i + 1 = MAX_LOG_FILES
      · rw [if_pos hlast]
        have : MAX_LOG_FILES - (i + 1) = 0 := by omega
        simp [this]
      · rw [if_neg hlast, ih (i + 1) (by omega)]
    · simp only [initLogFileNamesLoop, if_neg hde, List.filter_cons]
      have : i ≠ MAX_LOG_FILES := by omega
      rw [if_neg this, ih i hi]

/-- C2 (amended): for every directory listing, initLogFileNames returns
exactly the entries whose filename is longer than 4 characters and ends
in the recognized suffix ".csv", directory-prefixed, in filesystem
enumeration order, truncated at the fixed maximum of MAX_LOG_FILES = 16
entries; entries beyond the bound are silently not discovered. -/
theorem initLogFileNames_filter_take (dir : List Char) (entries : List (List Char)) :
    initLogFileNames dir entries =
      ((entries.filter isCSVName).take MAX_LOG_FILES).map
        (fun de => dir ++ '/' :: de) := by
  have h := initLogFileNamesLoop_eq dir entries 0 (by decide)
  simpa [initLogFileNames] using h

/-- C2 (counterexample): a directory containing exactly the two segment
files written by the spooler naming scheme, pglog-2021-01-01_000000.dat
and pglog-2021-01-02_000000.dat, yields an empty catalog — the
recognized suffix is ".csv", so neither .dat path is returned, refuting
the claim that both paths are returned. -/
theorem initLogFileNames_misses_dat_files :
    initLogFileNames "/log".toList
        [ "pglog-2021-01-01_000000.dat".toList, "pglog-2021-01-02_000000.dat".toList ] = []
    ∧ initLogFileNames "/log".toList
        [ "pglog-2021-01-01_000000.dat".toList, "pglog-2021-01-02_000000.dat".toList ] ≠
      [ "/log/pglog-2021-01-01_000000.dat".toList, "/log/pglog-2021-01-02_000000.dat".toList ] := by
  constructor
  · decide
  · decide

/-! ## Size estimator (src/pglog_helpers.c lines 134-211)

estimate_size inspects the first catalogued file: stat failure is
replaced by a 10 * BLCKSZ default size; the size is converted to a page
count (ceiling division, minimum 1); with prior planner statistics
(baserel.pages > 0) the tuple count is density times current pages,
otherwise it is size divided by a synthetic tuple width of
MAXALIGN(baserel.width) + MAXALIGN(sizeof(HeapTupleHeaderData)); either
way the result goes through clamp_row_est.  The C arithmetic is in
double; we embed it in ℚ, on which every operation involved is exact
except rint, whose ties-to-even differs from round only at exact
half-integers, which none of the claims touch. -/

/-- Page size of the standard build (BLCKSZ). -/
def BLCKSZ : Nat := 8192

/-- MAXALIGN of the standard build: round up to a multiple of
MAXIMUM_ALIGNOF = 8. -/
def MAXALIGN (n : Nat) : Nat := ((n + 7) / 8) * 8

/-- sizeof(HeapTupleHeaderData) in the standard build: 23 bytes. -/
def SIZEOF_HEAPTUPLEHEADERDATA : Nat := 23

/-- clamp_row_est from the PostgreSQL planner (an external collaborator
called at src/pglog_helpers.c lines 175 and 191): force the estimate to
at least one row and make it an integer with rint. -/
def clamp_row_est (nrows : ℚ) : ℚ :=
  if nrows ≤ 1 then 1 else (round nrows : ℤ)

/-- The page computation of estimate_size (src/pglog_helpers.c lines
157-159): ceiling division by BLCKSZ, minimum one page. -/
def estimate_size_pages (st_size : Nat) : Nat :=
  max ((st_size + (BLCKSZ - 1)) / BLCKSZ) 1

/-- The tuple-count computation of estimate_size (src/pglog_helpers.c
lines 151-194).  statOk says whether stat succeeded on the first file
(on failure st_size is replaced by the 10 * BLCKSZ default); priorPages
and priorTuples are baserel.pages and baserel.tuples from a previous
ANALYZE; width is baserel.width, the planner-supplied expected output
row width. -/
def estimate_size_ntuples (statOk : Bool) (st_size : Nat)
    (priorPages : Nat) (priorTuples : ℚ) (width : Nat) : ℚ :=
  let sz : Nat := if statOk then st_size else 10 * BLCKSZ
  let pages : Nat := estimate_size_pages sz
  if 0 < priorPages then
    clamp_row_est ((priorTuples / (priorPages : ℚ)) * (pages : ℚ))
  else
    let tuple_width : Nat := MAXALIGN width + MAXALIGN SIZEOF_HEAPTUPLEHEADERDATA
    clamp_row_est ((sz : ℚ) / (tuple_width : ℚ))

theorem round_mono {x y : ℚ} (h : x ≤ y) : round x ≤ round y := by
  rw [round_eq, round_eq]
  exact Int.floor_mono (by linarith)

theorem clamp_row_est_mono {x y : ℚ} (h : x ≤ y) :
    clamp_row_est x ≤ clamp_row_est y := by
  unfold clamp_row_est
  by_cases hy : y ≤ 1
  · rw [if_pos (le_trans h hy), if_pos hy]
  · rw [if_neg hy]
    by_cases hx : x ≤ 1
    · rw [if_pos hx]
      have h2 : (1 : ℚ) ≤ y := le_of_not_le hy
      have h1 : (1 : ℤ) ≤ round y := by simpa using round_mono h2
      exact_mod_cast h1
    · rw [if_neg hx]
      exact_mod_cast round_mono h

theorem one_le_clamp_row_est (x : ℚ) : 1 ≤ clamp_row_est x := by
  unfold clamp_row_est
  by_cases hx : x ≤ 1
  · rw [if_pos hx]
  · rw [if_neg hx]
    have h2 : (1 : ℚ) ≤ x := le_of_not_le hx
    have h1 : (1 : ℤ) ≤ round x := by simpa using round_mono h2
    exact_mod_cast h1

theorem estimate_size_pages_mono {s₁ s₂ : Nat} (h : s₁ ≤ s₂) :
    estimate_size_pages s₁ ≤ estimate_size_pages s₂ := by
  unfold estimate_size_pages
  exact max_le_max (Nat.div_le_div_right (by omega)) le_rfl

/-- C7 (counterexample): a 10 KiB file (10240 bytes), no prior
statistics, configured row width 200 bytes: the synthetic tuple width is
MAXALIGN(200) + MAXALIGN(23) = 224, so the estimate is
rint(10240 / 224) = 46, not approximately 10240 / 200 = 51; in
particular the estimate differs from 51. -/
theorem estimate_size_10KiB_is_46_not_51 :
    estimate_size_ntuples true 10240 0 0 200 = 46 ∧
      estimate_size_ntuples true 10240 0 0 200 ≠ 51 := by
  have h : estimate_size_ntuples true 10240 0 0 200 = 46 := by
    unfold estimate_size_ntuples estimate_size_pages clamp_row_est
    norm_num [MAXALIGN, SIZEOF_HEAPTUPLEHEADERDATA, BLCKSZ, round_eq]
  exact ⟨h, by rw [h]; norm_num⟩

/-- C7 (amended): with no prior statistics, estimate_size computes
tupleCount = size / syntheticRowWidth where the synthetic row width is
MAXALIGN(configured row width) + MAXALIGN(per-row header overhead of 23
bytes), the quotient being rounded by clamp_row_est; for a 10 KiB file
and a configured row width of 200 bytes the synthetic width is 224 and
the tuple count is rint(10240/224) = 46; the result is always clamped to
a positive (hence non-negative) integral value. -/
theorem estimate_size_no_stats_formula :
    (∀ t : ℚ, estimate_size_ntuples true 10240 0 t 200 = 46) ∧
      (∀ (ok : Bool) (sz pp : Nat) (pt : ℚ) (w : Nat),
        1 ≤ estimate_size_ntuples ok sz pp pt w) := by
  constructor
  · intro t
    unfold estimate_size_ntuples estimate_size_pages clamp_row_est
    norm_num [MAXALIGN, SIZEOF_HEAPTUPLEHEADERDATA, BLCKSZ, round_eq]
  · intro ok sz pp pt w
    unfold estimate_size_ntuples
    by_cases hpp : 0 < pp
    · simp only [if_pos hpp]; exact one_le_clamp_row_est _
    · simp only [if_neg hpp]; exact one_le_clamp_row_est _

/-- C8: holding stat success, prior statistics and the configured row
width fixed, the tuple-count estimate of estimate_size is monotone in
the file byte size: a larger file never yields a smaller estimate.
Prior tuple counts are non-negative, as the planner guarantees. -/
theorem estimate_size_ntuples_mono (s₁ s₂ pp : Nat) (pt : ℚ) (w : Nat)
    (hs : s₁ ≤ s₂) (hpt : 0 ≤ pt) :
    estimate_size_ntuples true s₁ pp pt w ≤ estimate_size_ntuples true s₂ pp pt w := by
  unfold estimate_size_ntuples
  by_cases hpp : 0 < pp
  · simp only [if_pos hpp]
    apply clamp_row_est_mono
    have hd : 0 ≤ pt / (pp : ℚ) := by positivity
    have hpg : ((estimate_size_pages s₁ : ℚ)) ≤ (estimate_size_pages s₂ : ℚ) := by
      exact_mod_cast estimate_size_pages_mono hs
    exact mul_le_mul_of_nonneg_left hpg hd
  · simp only [if_neg hpp]
    apply clamp_row_est_mono
    have hw : (0 : ℚ) < ((MAXALIGN w + MAXALIGN SIZEOF_HEAPTUPLEHEADERDATA : Nat) : ℚ) := by
      have : 0 < MAXALIGN w + MAXALIGN SIZEOF_HEAPTUPLEHEADERDATA := by
        unfold MAXALIGN SIZEOF_HEAPTUPLEHEADERDATA; omega
      exact_mod_cast this
    apply div_le_div_of_nonneg_right ?_ hw.le
    exact_mod_cast hs

/-- C8 (witness): the monotonicity theorem applied to the concrete sizes
8192 and 10240 bytes with prior statistics absent and row width 200. -/
theorem estimate_size_ntuples_mono_witness :
    estimate_size_ntuples true 8192 0 0 200 ≤ estimate_size_ntuples true 10240 0 0 200 :=
  estimate_size_ntuples_mono 8192 10240 0 0 200 (by norm_num) (by norm_num)

/-! ## Event formatter (src/pglog_spool.c lines 276-531)

fmtLogLine turns one ErrorData plus the ambient process context into one
CSV record of 23 comma-separated cells terminated by a newline.  The two
function-static variables (log_line_number, log_my_pid) and the two
static timestamp buffers (formatted_start_time, formatted_log_time) are
embedded as an explicit FmtState threaded through the calls.  The
strftime output of the two setup functions is taken from the ambient
context (it is OS and timezone dependent). -/

/-- Decimal digit printer with structural fuel (the libc %d/%ld used by
appendStringInfo); fuel n + 1 always suffices for n. -/
def natReprAux : Nat → Nat → List Char → List Char
  | 0, _, acc => acc
  | fuel + 1, n, acc =>
    let d := Char.ofNat (48 + n % 10)
    if n < 10 then d :: acc
    else natReprAux fuel (n / 10) (d :: acc)

/-- Decimal rendering of a natural number, as printf %u renders it. -/
def natRepr (n : Nat) : List Char :=
  natReprAux (n + 1) n []

/-- Decimal rendering of an integer, as printf %d renders it. -/
def intRepr (n : Int) : List Char :=
  if n < 0 then '-' :: natRepr n.natAbs else natRepr n.toNat

/-- One lowercase hexadecimal digit. -/
def natHexDigit (d : Nat) : Char :=
  Char.ofNat (if d < 10 then 48 + d else 87 + d)

def natHexReprAux : Nat → Nat → List Char → List Char
  | 0, _, acc => acc
  | fuel + 1, n, acc =>
    let d := natHexDigit (n % 16)
    if n < 16 then d :: acc
    else natHexReprAux fuel (n / 16) (d :: acc)

/-- Hexadecimal rendering of a natural number, as printf %x renders it. -/
def natHexRepr (n : Nat) : List Char :=
  natHexReprAux (n + 1) n []

/-- unpack_sql_state from PostgreSQL elog.c (an external collaborator
called at src/pglog_spool.c line 464): five characters, each decoding
six bits of the packed SQL state via PGUNSIXBIT. -/
def unpack_sql_state (sql_state : Nat) : List Char :=
  (List.range 5).map fun i => Char.ofNat (sql_state / 64 ^ i % 64 + 48)

/-- error_severity (src/pglog_spool.c lines 279-321). -/
def error_severity (elevel : Int) : List Char :=
  if elevel = DEBUG1 ∨ elevel = DEBUG2 ∨ elevel = DEBUG3 ∨ elevel = DEBUG4 ∨
      elevel = DEBUG5 then "DEBUG".toList
  else if elevel = LOG_LEVEL ∨ elevel = COMMERROR then "LOG".toList
  else if elevel = INFO then "INFO".toList
  else if elevel = NOTICE then "NOTICE".toList
  else if elevel = WARNING then "WARNING".toList
  else if elevel = ERROR_LEVEL then "ERROR".toList
  else if elevel = FATAL then "FATAL".toList
  else if elevel = PANIC then "PANIC".toList
  else "???".toList

/-- is_log_level_output (src/pglog_spool.c lines 331-350): is elevel
logically at least log_min_level, with LOG sorting between ERROR and
FATAL. -/
def is_log_level_output (elevel log_min_level : Int) : Bool :=
  if elevel = LOG_LEVEL ∨ elevel = COMMERROR then
    decide (log_min_level = LOG_LEVEL ∨ log_min_level ≤ ERROR_LEVEL)
  else if log_min_level = LOG_LEVEL then
    decide (FATAL ≤ elevel)
  else
    decide (log_min_level ≤ elevel)

/-- The fields of struct Port read by fmtLogLine (libpq-be.h). -/
structure Port where
  user_name : Option (List Char)
  database_name : Option (List Char)
  remote_host : Option (List Char)
  remote_port : Option (List Char)

/-- The fields of struct PGPROC read by fmtLogLine (storage/proc.h). -/
structure PGPROC where
  backendId : Int
  lxid : Nat

/-- The fields of ErrorData read by fmtLogLine (utils/elog.h). -/
structure ErrorData where
  elevel : Int
  sqlerrcode : Nat
  message : Option (List Char)
  detail : Option (List Char)
  detail_log : Option (List Char)
  hint : Option (List Char)
  context : Option (List Char)
  internalquery : Option (List Char)
  internalpos : Int
  cursorpos : Int
  hide_stmt : Bool
  funcname : Option (List Char)
  filename : Option (List Char)
  lineno : Int

/-- The ambient process context read by fmtLogLine: globals of the host
server (MyProcPort, MyProcPid, MyStartTime, MyProc, debug_query_string,
application_name, the statement-logging threshold and verbosity GUCs,
the ps display) together with the strftime renderings the two setup
functions would produce for the current instant. -/
structure Ambient where
  MyProcPort : Option Port
  MyProcPid : Int
  MyStartTime : Int
  MyProc : Option PGPROC
  ps_display : List Char
  topTransactionId : Nat
  debug_query_string : Option (List Char)
  log_min_error_statement : Int
  Log_error_verbosity : Int
  application_name : Option (List Char)
  log_time_now : List Char
  start_time_now : List Char

/-- The static state of fmtLogLine and the two static timestamp buffers
of src/pglog_spool.c (lines 54-55, 358, 361). -/
structure FmtState where
  log_line_number : Int
  log_my_pid : Int
  formatted_start_time : List Char
  formatted_log_time : List Char

/-- The statics at process start: zero-initialized counters and empty
timestamp buffers. -/
def initFmtState : FmtState :=
  { log_line_number := 0, log_my_pid := 0,
    formatted_start_time := [], formatted_log_time := [] }

def InvalidBackendId : Int := -1

/-- PGERROR_VERBOSE of the Log_error_verbosity enum. -/
def PGERROR_VERBOSE : Int := 2

/-- The state updates of fmtLogLine (src/pglog_spool.c lines 363-384,
443-445): reset the line counter, remember the pid and clear the cached
start time when the process identity changed; increment the line
counter; fill either timestamp buffer if it is empty. -/
def fmtAdvance (st : FmtState) (a : Ambient) : FmtState :=
  let st₁ :=
    if st.log_my_pid ≠ a.MyProcPid then
      { st with log_line_number := 0, log_my_pid := a.MyProcPid,
                formatted_start_time := [] }
    else st
  let st₂ := { st₁ with log_line_number := st₁.log_line_number + 1 }
  let st₃ := { st₂ with formatted_log_time :=
    if st₂.formatted_log_time = [] then a.log_time_now else st₂.formatted_log_time }
  { st₃ with formatted_start_time :=
    if st₃.formatted_start_time = [] then a.start_time_now else st₃.formatted_start_time }

/-- The remote host and port cell (src/pglog_spool.c lines 404-416):
manually quoted host, with a colon and the port when the port string is
present and non-empty. -/
def remoteCell (a : Ambient) : List Char :=
  match a.MyProcPort with
  | none => []
  | some port =>
    match port.remote_host with
    | none => []
    | some host =>
      '"' :: (host ++
        (match port.remote_port with
         | some p => if p ≠ [] then ':' :: p else []
         | none => []) ++ [ '"' ])

/-- The session id cell (src/pglog_spool.c line 419): %lx.%x of
MyStartTime and MyProcPid. -/
def sessionIdCell (a : Ambient) : List Char :=
  natHexRepr a.MyStartTime.toNat ++ '.' :: natHexRepr a.MyProcPid.toNat

/-- The virtual transaction id cell (src/pglog_spool.c lines 449-453):
backendId/lxid when MyProc exists and its backendId is valid. -/
def vxidCell (a : Ambient) : List Char :=
  match a.MyProc with
  | none => []
  | some p =>
    if p.backendId ≠ InvalidBackendId then
      intRepr p.backendId ++ '/' :: natRepr p.lxid
    else []

/-- The print_stmt flag of fmtLogLine (src/pglog_spool.c lines 495-499):
the severity passes the statement-logging threshold, a query text is
available, and the caller did not suppress the statement. -/
def print_stmt (e : ErrorData) (a : Ambient) : Bool :=
  is_log_level_output e.elevel a.log_min_error_statement &&
    a.debug_query_string.isSome && !e.hide_stmt

/-- The error location cell (src/pglog_spool.c lines 507-524): only in
verbose mode; function, file and line when both names are present, file
and line when only the file is, otherwise an empty string — in verbose
mode the cell is always CSV-quoted, even when empty. -/
def locationCell (e : ErrorData) (a : Ambient) : List Char :=
  if PGERROR_VERBOSE ≤ a.Log_error_verbosity then
    appendCSVLiteral (some
      (match e.funcname, e.filename with
       | some fn, some f => fn ++ ',' :: ' ' :: f ++ ':' :: intRepr e.lineno
       | none, some f => f ++ ':' :: intRepr e.lineno
       | _, none => []))
  else []

/-- The 23 cells of one record, in the order fmtLogLine appends them
(src/pglog_spool.c lines 376-530); st is the state after fmtAdvance, so
its buffers are the ones the cells read.  Every comma in the C code is
unconditional, hence exactly one list position per cell. -/
def cellsOf (st : FmtState) (e : ErrorData) (a : Ambient) : List (List Char) :=
  [ st.formatted_log_time,
    (match a.MyProcPort with
     | some port => appendCSVLiteral port.user_name
     | none => []),
    (match a.MyProcPort with
     | some port => appendCSVLiteral port.database_name
     | none => []),
    (if a.MyProcPid ≠ 0 then intRepr a.MyProcPid else []),
    remoteCell a,
    sessionIdCell a,
    intRepr st.log_line_number,
    (match a.MyProcPort with
     | some _ => appendCSVLiteral (some a.ps_display)
     | none => []),
    st.formatted_start_time,
    vxidCell a,
    natRepr a.topTransactionId,
    error_severity e.elevel,
    unpack_sql_state e.sqlerrcode,
    appendCSVLiteral e.message,
    (match e.detail_log with
     | some d => appendCSVLiteral (some d)
     | none => appendCSVLiteral e.detail),
    appendCSVLiteral e.hint,
    appendCSVLiteral e.internalquery,
    (if 0 < e.internalpos ∧ e.internalquery ≠ none then intRepr e.internalpos else []),
    appendCSVLiteral e.context,
    (if print_stmt e a then appendCSVLiteral a.debug_query_string else []),
    (if print_stmt e a ∧ 0 < e.cursorpos then intRepr e.cursorpos else []),
    locationCell e a,
    appendCSVLiteral a.application_name ]

/-- fmtLogLine (src/pglog_spool.c lines 352-531): advance the static
state, then emit the 23 cells; the caller joins them with commas and the
final newline. -/
def fmtLogLine (st : FmtState) (e : ErrorData) (a : Ambient) :
    List (List Char) × FmtState :=
  (cellsOf (fmtAdvance st a) e a, fmtAdvance st a)

/-- The record buffer fmtLogLine builds: cells joined by commas,
terminated by a newline (the unconditional appendStringInfoChar calls of
src/pglog_spool.c). -/
def flattenRecord (cells : List (List Char)) : List Char :=
  (List.intercalate [ ',' ] cells) ++ [ '\n' ]

/-- Formatting a sequence of events, threading the static state. -/
def fmtRunCells (st : FmtState) : List (ErrorData × Ambient) → List (List (List Char))
  | [] => []
  | ev :: rest =>
    (fmtLogLine st ev.1 ev.2).1 :: fmtRunCells (fmtLogLine st ev.1 ev.2).2 rest

theorem natReprAux_ne_nil (fuel : Nat) :
    ∀ (n : Nat) (acc : List Char), acc ≠ [] → natReprAux fuel n acc ≠ [] := by
  induction fuel with
  | zero => intro n acc hacc; simpa [natReprAux] using hacc
  | succ f ih =>
    intro n acc _
    show (if n < 10 then Char.ofNat (48 + n % 10) :: acc
      else natReprAux f (n / 10) (Char.ofNat (48 + n % 10) :: acc)) ≠ []
    by_cases h : n < 10
    · simp [h]
    · rw [if_neg h]; exact ih _ _ (by simp)

theorem natRepr_ne_nil (n : Nat) : natRepr n ≠ [] := by
  show (if n < 10 then Char.ofNat (48 + n % 10) :: []
    else natReprAux n (n / 10) (Char.ofNat (48 + n % 10) :: [])) ≠ []
  by_cases h : n < 10
  · simp [h]
  · rw [if_neg h]; exact natReprAux_ne_nil _ _ _ (by simp)

theorem intRepr_ne_nil (n : Int) : intRepr n ≠ [] := by
  unfold intRepr
  by_cases h : n < 0
  · simp [h]
  · rw [if_neg h]; exact natRepr_ne_nil _

theorem appendCSVLiteral_some_ne_nil (s : List Char) :
    appendCSVLiteral (some s) ≠ [] := by
  simp [appendCSVLiteral]

/-- C5: every formatted record has exactly 23 cells, for every static
state, every event and every ambient context — in particular for every
combination of absent or empty optional fields; an absent value yields
an empty cell at its fixed position, so positional column alignment
holds across all records ever written. -/
theorem fmt_record_cell_count (st : FmtState) (e : ErrorData) (a : Ambient) :
    (fmtLogLine st e a).1.length = 23 := rfl

/-- C5 (witness): the cell count evaluated on a concrete state, event
and context. -/
theorem fmt_record_cell_count_witness :
    (fmtLogLine initFmtState
      { elevel := 20, sqlerrcode := 0, message := none, detail := none,
        detail_log := none, hint := none, context := none,
        internalquery := none, internalpos := 0, cursorpos := 0,
        hide_stmt := false, funcname := none, filename := none, lineno := 0 }
      { MyProcPort := none, MyProcPid := 0, MyStartTime := 0, MyProc := none,
        ps_display := [], topTransactionId := 0, debug_query_string := none,
        log_min_error_statement := 20, Log_error_verbosity := 1,
        application_name := none, log_time_now := [], start_time_now := [] }).1.length
      = 23 :=
  fmt_record_cell_count _ _ _

theorem print_stmt_iff (e : ErrorData) (a : Ambient) :
    print_stmt e a = true ↔
      (e.hide_stmt = false ∧ a.debug_query_string.isSome = true ∧
        is_log_level_output e.elevel a.log_min_error_statement = true) := by
  simp [print_stmt, Bool.and_eq_true]
  tauto

/-- C9: the query-text cell (position 20 of the record, index 19) is
non-empty iff the caller did not suppress the statement for this event,
a query text is currently available, and the severity passes the
configured minimum-for-statement-logging threshold; the
query-cursor-position cell (index 20) is non-empty iff the query-text
cell is non-empty and the position is strictly positive. -/
theorem fmt_query_cells (st : FmtState) (e : ErrorData) (a : Ambient) :
    ((fmtLogLine st e a).1.getD 19 [] ≠ [] ↔
      (e.hide_stmt = false ∧ a.debug_query_string.isSome = true ∧
        is_log_level_output e.elevel a.log_min_error_statement = true)) ∧
    ((fmtLogLine st e a).1.getD 20 [] ≠ [] ↔
      ((fmtLogLine st e a).1.getD 19 [] ≠ [] ∧ 0 < e.cursorpos)) := by
  have h19 : (fmtLogLine st e a).1.getD 19 [] =
      (if print_stmt e a then appendCSVLiteral a.debug_query_string else []) := rfl
  have h20 : (fmtLogLine st e a).1.getD 20 [] =
      (if print_stmt e a ∧ 0 < e.cursorpos then intRepr e.cursorpos else []) := rfl
  have hq : print_stmt e a = true → appendCSVLiteral a.debug_query_string ≠ [] := by
    intro hps
    obtain ⟨-, h2, -⟩ := (print_stmt_iff e a).mp hps
    obtain ⟨q, hqq⟩ := Option.isSome_iff_exists.mp h2
    rw [hqq]
    exact appendCSVLiteral_some_ne_nil q
  constructor
  · rw [h19]
    by_cases hps : print_stmt e a
    · rw [if_pos hps]
      exact ⟨fun _ => (print_stmt_iff e a).mp hps, fun _ => hq hps⟩
    · rw [if_neg hps]
      have := (not_iff_not.mpr (print_stmt_iff e a)).mp (by simpa using hps)
      simp [this]
  · rw [h20, h19]
    by_cases hps : print_stmt e a
    · by_cases hc : 0 < e.cursorpos
      · rw [if_pos ⟨hps, hc⟩, if_pos hps]
        simp [intRepr_ne_nil, hq hps, hc]
      · rw [if_neg (fun h => hc h.2), if_pos hps]
        simp [hc]
    · rw [if_neg (fun h => hps h.1), if_neg hps]
      simp

theorem fmtAdvance_log_my_pid (st : FmtState) (a : Ambient) :
    (fmtAdvance st a).log_my_pid = a.MyProcPid := by
  by_cases h : st.log_my_pid = a.MyProcPid <;> simp [fmtAdvance, h]

theorem fmtAdvance_log_line_number (st : FmtState) (a : Ambient) :
    (fmtAdvance st a).log_line_number =
      (if st.log_my_pid = a.MyProcPid then st.log_line_number else 0) + 1 := by
  by_cases h : st.log_my_pid = a.MyProcPid <;> simp [fmtAdvance, h]

theorem fmtLogLine_line_cell (st : FmtState) (e : ErrorData) (a : Ambient) :
    (fmtLogLine st e a).1.getD 6 [] = intRepr ((fmtAdvance st a).log_line_number) := rfl

theorem fmtLogLine_state (st : FmtState) (e : ErrorData) (a : Ambient) :
    (fmtLogLine st e a).2 = fmtAdvance st a := rfl

theorem map_intRepr_shift (c : Int) (n : Nat) :
    (List.range n).map ((fun k : Nat => intRepr (c + (k : Int) + 1)) ∘ Nat.succ) =
      (List.range n).map (fun k : Nat => intRepr (c + 1 + (k : Int) + 1)) := by
  refine List.map_congr_left ?_
  intro k _
  simp only [Function.comp_apply]
  congr 1
  push_cast
  ring

theorem map_intRepr_shift_zero (n : Nat) :
    (List.range n).map ((fun k : Nat => intRepr ((k : Int) + 1)) ∘ Nat.succ) =
      (List.range n).map (fun k : Nat => intRepr (1 + (k : Int) + 1)) := by
  refine List.map_congr_left ?_
  intro k _
  simp only [Function.comp_apply]
  congr 1
  push_cast
  ring

theorem fmtRunCells_line_numbers (p : Int) (evs : List (ErrorData × Ambient)) :
    ∀ st : FmtState, (∀ ev ∈ evs, ev.2.MyProcPid = p) → st.log_my_pid = p →
      ((fmtRunCells st evs).map fun cells => cells.getD 6 []) =
        (List.range evs.length).map
          (fun k : Nat => intRepr (st.log_line_number + (k : Int) + 1)) := by
  induction evs with
  | nil => intro st _ _; simp [fmtRunCells]
  | cons ev rest ih =>
    intro st hp hst
    have hpid : ev.2.MyProcPid = p := hp ev (by simp)
    have hcond : st.log_my_pid = ev.2.MyProcPid := by rw [hst, hpid]
    have hcell : (fmtLogLine st ev.1 ev.2).1.getD 6 [] = intRepr (st.log_line_number + 1) := by
      rw [fmtLogLine_line_cell, fmtAdvance_log_line_number, if_pos hcond]
    have hstpid : (fmtLogLine st ev.1 ev.2).2.log_my_pid = p := by
      rw [fmtLogLine_state, fmtAdvance_log_my_pid, hpid]
    have hstnum : (fmtLogLine st ev.1 ev.2).2.log_line_number = st.log_line_number + 1 := by
      rw [fmtLogLine_state, fmtAdvance_log_line_number, if_pos hcond]
    have hrest := ih (fmtLogLine st ev.1 ev.2).2 (fun x hx => hp x (by simp [hx])) hstpid
    show ((fmtLogLine st ev.1 ev.2).1 ::
        fmtRunCells (fmtLogLine st ev.1 ev.2).2 rest).map (fun cells => cells.getD 6 []) = _
    rw [List.map_cons, hcell, hrest, hstnum]
    rw [List.length_cons, List.range_succ_eq_map, List.map_cons, List.map_map,
      map_intRepr_shift]
    norm_num

/-- C4: formatting N consecutive events whose process identity is the
same value p, starting from the process-start static state, yields
line-sequence numbers 1..N in order (the cell at index 6 of the k-th
record renders k); and whenever the process identity of a call differs
from the identity remembered from the previous call, the counter is
reset so that call emits sequence number 1. -/
theorem fmt_sequence_numbers (evs : List (ErrorData × Ambient)) (p : Int)
    (hp : ∀ ev ∈ evs, ev.2.MyProcPid = p) :
    ((fmtRunCells initFmtState evs).map fun cells => cells.getD 6 []) =
      (List.range evs.length).map (fun k : Nat => intRepr ((k : Int) + 1))
    ∧ ∀ (st : FmtState) (e : ErrorData) (a : Ambient),
        a.MyProcPid ≠ st.log_my_pid →
        (fmtLogLine st e a).1.getD 6 [] = intRepr 1 := by
  constructor
  · cases evs with
    | nil => simp [fmtRunCells]
    | cons ev rest =>
      have hpid : ev.2.MyProcPid = p := hp ev (by simp)
      have hinit : (if initFmtState.log_my_pid = ev.2.MyProcPid
          then initFmtState.log_line_number else 0) = 0 := by
        by_cases h : initFmtState.log_my_pid = ev.2.MyProcPid <;> simp [h, initFmtState]
      have hcell : (fmtLogLine initFmtState ev.1 ev.2).1.getD 6 [] = intRepr 1 := by
        rw [fmtLogLine_line_cell, fmtAdvance_log_line_number, hinit]
        norm_num
      have hstpid : (fmtLogLine initFmtState ev.1 ev.2).2.log_my_pid = p := by
        rw [fmtLogLine_state, fmtAdvance_log_my_pid, hpid]
      have hstnum : (fmtLogLine initFmtState ev.1 ev.2).2.log_line_number = 1 := by
        rw [fmtLogLine_state, fmtAdvance_log_line_number, hinit]
        norm_num
      have hrest := fmtRunCells_line_numbers p rest (fmtLogLine initFmtState ev.1 ev.2).2
        (fun x hx => hp x (by simp [hx])) hstpid
      show ((fmtLogLine initFmtState ev.1 ev.2).1 ::
          fmtRunCells (fmtLogLine initFmtState ev.1 ev.2).2 rest).map
            (fun cells => cells.getD 6 []) = _
      rw [List.map_cons, hcell, hrest, hstnum]
      rw [List.length_cons, List.range_succ_eq_map, List.map_cons, List.map_map,
        map_intRepr_shift_zero]
      norm_num
  · intro st e a hne
    rw [fmtLogLine_line_cell, fmtAdvance_log_line_number,
      if_neg (fun h => hne h.symm)]
    norm_num

/-- A concrete ambient context for witnesses: a backend with pid 7. -/
def sampleAmbient : Ambient :=
  { MyProcPort := some
      { user_name := some "alice".toList, database_name := some "db".toList,
        remote_host := some "localhost".toList, remote_port := some "5432".toList },
    MyProcPid := 7, MyStartTime := 100, MyProc := none,
    ps_display := "idle".toList, topTransactionId := 0,
    debug_query_string := some "SELECT 1".toList,
    log_min_error_statement := ERROR_LEVEL, Log_error_verbosity := 1,
    application_name := some "psql".toList,
    log_time_now := "2021-01-01 00:00:00.000 UTC".toList,
    start_time_now := "2021-01-01 00:00:00 UTC".toList }

/-- A concrete event for witnesses: an ERROR with a message. -/
def sampleErrorData : ErrorData :=
  { elevel := ERROR_LEVEL, sqlerrcode := 0, message := some "boom".toList,
    detail := none, detail_log := none, hint := none, context := none,
    internalquery := none, internalpos := 0, cursorpos := 0,
    hide_stmt := false, funcname := none, filename := none, lineno := 0 }

/-- C4 (witness): two events with the same pid 7 from the initial state
yield sequence numbers 1 and 2; a call whose pid 7 differs from the
remembered pid 3 emits sequence number 1. -/
theorem fmt_sequence_numbers_witness :
    ((fmtRunCells initFmtState
        [ (sampleErrorData, sampleAmbient), (sampleErrorData, sampleAmbient) ]).map
      fun cells => cells.getD 6 []) =
      (List.range 2).map (fun k : Nat => intRepr ((k : Int) + 1))
    ∧ (fmtLogLine
        { log_line_number := 5, log_my_pid := 3,
          formatted_start_time := [], formatted_log_time := [] }
        sampleErrorData sampleAmbient).1.getD 6 [] = intRepr 1 :=
  ⟨(fmt_sequence_numbers
      [ (sampleErrorData, sampleAmbient), (sampleErrorData, sampleAmbient) ] 7
      (by intro ev hev; simp only [List.mem_cons, List.mem_singleton] at hev
          rcases hev with h | h | h <;> first | (subst h; rfl) | exact absurd h (by simp))).1,
   (fmt_sequence_numbers [] 7 (by simp)).2 _ sampleErrorData sampleAmbient (by decide)⟩

/-! ## Spool writer state machine (src/pglog_spool.c lines 127-610)

The process-wide globals (Pglog_spooling_enabled, Pglog_directory,
Pglog_min_messages, currentSpoolfile, spoolfileRotationRequired) are an
explicit SpoolGlobals value, together with the contents of the segment
files created so far and the formatter statics.  The FILE pointer is the
index of the segment it writes to.  fopen and fwrite outcomes are an
explicit OSEnv: whether the open succeeds, how many bytes an fwrite of a
given length actually writes, and the errno value the disabled-path
fclose leaves behind (fclose sets errno only on failure, so the
environment chooses it).  currentSpoolfileName is used only in the text
of a diagnostic and is not modeled. -/

structure SpoolGlobals where
  Pglog_spooling_enabled : Bool
  Pglog_directory : Option (List Char)
  Pglog_min_messages : Int
  currentSpoolfile : Option Nat
  spoolfileRotationRequired : Bool
  segments : List (List Char)
  fmt : FmtState

structure OSEnv where
  openSucceeds : Bool
  fwriteRc : Nat → Nat
  errnoClose : Int

/-- openSpoolfile (src/pglog_spool.c lines 130-179): on success install
the freshly created (empty, append-mode) segment as the current spool
file; on failure set Pglog_spooling_enabled to false and report.  The
function saves errno on entry and restores it before returning (lines
133 and 176), so it has no net errno effect; mkdir failure is ignored. -/
def openSpoolfile (st : SpoolGlobals) (env : OSEnv) : SpoolGlobals :=
  if env.openSucceeds then
    { st with segments := st.segments ++ [[]],
              currentSpoolfile := some st.segments.length }
  else
    { st with Pglog_spooling_enabled := false }

/-- rotateSpoolfile (src/pglog_spool.c lines 184-202): close the current
file and drop its name, re-enable spooling, then open a new file. -/
def rotateSpoolfile (st : SpoolGlobals) (env : OSEnv) : SpoolGlobals :=
  openSpoolfile
    { st with currentSpoolfile := none, Pglog_spooling_enabled := true } env

/-- The rotation step of pglog_emit_log_hook (src/pglog_spool.c lines
570-577): rotate when no file is open or a rotation was requested. -/
def hookRotated (st : SpoolGlobals) (env : OSEnv) : SpoolGlobals :=
  if st.currentSpoolfile = none ∨ st.spoolfileRotationRequired = true then
    rotateSpoolfile st env
  else st

/-- The format-and-write step of pglog_emit_log_hook (src/pglog_spool.c
lines 574-598): give up if no file could be opened; otherwise format the
record, fwrite it (the bytes actually written are appended to the
current segment), and when the returned count differs from the requested
length disable spooling; errno is restored to the saved entry value on
every one of these paths (line 604). -/
def hookWrite (st₁ : SpoolGlobals) (errno : Int) (e : ErrorData) (a : Ambient)
    (env : OSEnv) : SpoolGlobals × Int :=
  if st₁.currentSpoolfile = none then (st₁, errno)
  else if env.fwriteRc (flattenRecord (fmtLogLine st₁.fmt e a).1).length ≠
      (flattenRecord (fmtLogLine st₁.fmt e a).1).length then
    ({ st₁ with
        fmt := (fmtLogLine st₁.fmt e a).2,
        segments := st₁.segments.set (st₁.currentSpoolfile.getD 0)
          ((st₁.segments.getD (st₁.currentSpoolfile.getD 0) []) ++
            (flattenRecord (fmtLogLine st₁.fmt e a).1).take
              (env.fwriteRc (flattenRecord (fmtLogLine st₁.fmt e a).1).length)),
        Pglog_spooling_enabled := false }, errno)
  else
    ({ st₁ with
        fmt := (fmtLogLine st₁.fmt e a).2,
        segments := st₁.segments.set (st₁.currentSpoolfile.getD 0)
          ((st₁.segments.getD (st₁.currentSpoolfile.getD 0) []) ++
            (flattenRecord (fmtLogLine st₁.fmt e a).1).take
              (env.fwriteRc (flattenRecord (fmtLogLine st₁.fmt e a).1).length)) },
      errno)

/-- pglog_emit_log_hook (src/pglog_spool.c lines 533-610).  First early
exit (lines 543-554): spooling disabled, or directory NULL or empty —
close a dangling descriptor if one exists (the fclose can change errno
and nothing restores it on this path; the pointer itself is not
cleared).  Second early exit (lines 557-560): the severity does not pass
Pglog_min_messages.  Otherwise save errno, rotate if needed, write, and
restore errno.  The chained previous hook (lines 607-609) is an external
collaborator invoked after all of this and is not modeled. -/
def pglog_emit_log_hook (st : SpoolGlobals) (errno : Int) (e : ErrorData)
    (a : Ambient) (env : OSEnv) : SpoolGlobals × Int :=
  if st.Pglog_spooling_enabled = false ∨ st.Pglog_directory = none ∨
      st.Pglog_directory = some [] then
    (st, if st.currentSpoolfile.isSome then env.errnoClose else errno)
  else if is_log_level_output e.elevel st.Pglog_min_messages = false then
    (st, errno)
  else
    hookWrite (hookRotated st env) errno e a env

theorem pglog_emit_log_hook_disabled_state (st : SpoolGlobals) (errno : Int)
    (e : ErrorData) (a : Ambient) (env : OSEnv)
    (h : st.Pglog_spooling_enabled = false) :
    (pglog_emit_log_hook st errno e a env).1 = st := by
  unfold pglog_emit_log_hook
  rw [if_pos (Or.inl h)]

theorem rotateSpoolfile_result (st : SpoolGlobals) (env : OSEnv) :
    (rotateSpoolfile st env).Pglog_spooling_enabled = env.openSucceeds
    ∧ (rotateSpoolfile st env).currentSpoolfile.isSome = env.openSucceeds := by
  unfold rotateSpoolfile openSpoolfile
  by_cases h : env.openSucceeds = true
  · simp [h]
  · rw [Bool.not_eq_true] at h
    simp [h]

/-- C3: a short write (fwrite returning fewer bytes than requested, on a
call that passes the early exits and writes to the already-open file)
leaves Pglog_spooling_enabled false; any subsequent hook invocation on
the disabled state leaves the state — in particular every segment —
untouched, so writes are no-ops until a rotate; and rotateSpoolfile
re-enables writing and attempts a new open, after which the enabled flag
equals the open outcome and a file is open iff the open succeeded — in
particular if the open also fails the disabled state persists. -/
theorem spool_disable_on_short_write (st : SpoolGlobals) (errno errno₂ : Int)
    (e e₂ : ErrorData) (a a₂ : Ambient) (env env₂ : OSEnv) (d : List Char) (k : Nat)
    (hen : st.Pglog_spooling_enabled = true)
    (hdir : st.Pglog_directory = some d) (hd : d ≠ [])
    (hfile : st.currentSpoolfile = some k)
    (hrot : st.spoolfileRotationRequired = false)
    (hlvl : is_log_level_output e.elevel st.Pglog_min_messages = true)
    (hshort : env.fwriteRc (flattenRecord (fmtLogLine st.fmt e a).1).length ≠
      (flattenRecord (fmtLogLine st.fmt e a).1).length) :
    (pglog_emit_log_hook st errno e a env).1.Pglog_spooling_enabled = false
    ∧ (pglog_emit_log_hook (pglog_emit_log_hook st errno e a env).1
        errno₂ e₂ a₂ env₂).1 = (pglog_emit_log_hook st errno e a env).1
    ∧ ∀ renv : OSEnv,
        (rotateSpoolfile (pglog_emit_log_hook st errno e a env).1
          renv).Pglog_spooling_enabled = renv.openSucceeds
        ∧ (rotateSpoolfile (pglog_emit_log_hook st errno e a env).1
            renv).currentSpoolfile.isSome = renv.openSucceeds := by
  have hcond : ¬(st.Pglog_spooling_enabled = false ∨ st.Pglog_directory = none ∨
      st.Pglog_directory = some []) := by
    simp [hen, hdir, hd]
  have hlvl' : ¬(is_log_level_output e.elevel st.Pglog_min_messages = false) := by
    simp [hlvl]
  have hnorot : ¬(st.currentSpoolfile = none ∨ st.spoolfileRotationRequired = true) := by
    simp [hfile, hrot]
  have hrotated : hookRotated st env = st := by
    unfold hookRotated
    rw [if_neg hnorot]
  have hnonone : ¬(st.currentSpoolfile = none) := by simp [hfile]
  have h1 : (pglog_emit_log_hook st errno e a env).1.Pglog_spooling_enabled = false := by
    unfold pglog_emit_log_hook
    rw [if_neg hcond, if_neg hlvl', hrotated]
    unfold hookWrite
    rw [if_neg hnonone, if_pos hshort]
  refine ⟨h1, pglog_emit_log_hook_disabled_state _ _ _ _ _ h1, fun renv => rotateSpoolfile_result _ renv⟩

/-- An enabled spooler with one open segment and the default WARNING
threshold, for witnesses. -/
def sampleSpoolGlobals : SpoolGlobals :=
  { Pglog_spooling_enabled := true, Pglog_directory := some "/spool".toList,
    Pglog_min_messages := WARNING, currentSpoolfile := some 0,
    spoolfileRotationRequired := false, segments := [[]], fmt := initFmtState }

/-- An environment whose open succeeds and whose writes are complete,
and whose disabled-path fclose would leave errno at 1. -/
def sampleOSEnv : OSEnv :=
  { openSucceeds := true, fwriteRc := fun n => n, errnoClose := 1 }

/-- An environment whose every fwrite writes zero of the requested
bytes (a short write) and whose open fails. -/
def shortWriteEnv : OSEnv :=
  { openSucceeds := false, fwriteRc := fun _ => 0, errnoClose := 1 }

/-- C3 (witness): the disable-on-short-write scenario evaluated on a
concrete enabled state, a concrete ERROR event and a concrete
environment that shorts the write; rotation with a succeeding open
re-enables, rotation with a failing open leaves the spooler disabled. -/
theorem spool_disable_on_short_write_witness :
    (pglog_emit_log_hook sampleSpoolGlobals 0 sampleErrorData sampleAmbient
      shortWriteEnv).1.Pglog_spooling_enabled = false
    ∧ (pglog_emit_log_hook
        (pglog_emit_log_hook sampleSpoolGlobals 0 sampleErrorData sampleAmbient
          shortWriteEnv).1 0 sampleErrorData sampleAmbient sampleOSEnv).1 =
      (pglog_emit_log_hook sampleSpoolGlobals 0 sampleErrorData sampleAmbient
        shortWriteEnv).1
    ∧ (rotateSpoolfile
        (pglog_emit_log_hook sampleSpoolGlobals 0 sampleErrorData sampleAmbient
          shortWriteEnv).1 sampleOSEnv).Pglog_spooling_enabled = sampleOSEnv.openSucceeds
    ∧ (rotateSpoolfile
        (pglog_emit_log_hook sampleSpoolGlobals 0 sampleErrorData sampleAmbient
          shortWriteEnv).1 shortWriteEnv).Pglog_spooling_enabled = shortWriteEnv.openSucceeds :=
  have h := spool_disable_on_short_write sampleSpoolGlobals 0 0
    sampleErrorData sampleErrorData sampleAmbient sampleAmbient
    shortWriteEnv sampleOSEnv "/spool".toList 0
    rfl rfl (by decide) rfl rfl (by decide) (by decide)
  ⟨h.1, h.2.1, (h.2.2 sampleOSEnv).1, (h.2.2 shortWriteEnv).1⟩

/-- C10 (amended): on every invocation on which spooling is enabled and
a directory is configured and non-empty, the hook restores the errno it
was entered with before returning — including the paths where the
severity check fails, where opening the new segment fails, and where the
write is short. -/
theorem pglog_emit_log_hook_preserves_errno (st : SpoolGlobals) (errno : Int)
    (e : ErrorData) (a : Ambient) (env : OSEnv) (d : List Char)
    (hen : st.Pglog_spooling_enabled = true)
    (hdir : st.Pglog_directory = some d) (hd : d ≠ []) :
    (pglog_emit_log_hook st errno e a env).2 = errno := by
  have hcond : ¬(st.Pglog_spooling_enabled = false ∨ st.Pglog_directory = none ∨
      st.Pglog_directory = some []) := by
    simp [hen, hdir, hd]
  unfold pglog_emit_log_hook
  rw [if_neg hcond]
  by_cases hlvl : is_log_level_output e.elevel st.Pglog_min_messages = false
  · rw [if_pos hlvl]
  · rw [if_neg hlvl]
    unfold hookWrite
    by_cases hcs : (hookRotated st env).currentSpoolfile = none
    · rw [if_pos hcs]
    · rw [if_neg hcs]
      split <;> rfl

/-- C10 (amended, witness): errno 5 on entry is still 5 on return for a
concrete enabled state, both for a complete write and for a short
write. -/
theorem pglog_emit_log_hook_preserves_errno_witness :
    (pglog_emit_log_hook sampleSpoolGlobals 5 sampleErrorData sampleAmbient
      sampleOSEnv).2 = 5
    ∧ (pglog_emit_log_hook sampleSpoolGlobals 5 sampleErrorData sampleAmbient
        shortWriteEnv).2 = 5 :=
  ⟨pglog_emit_log_hook_preserves_errno sampleSpoolGlobals 5 sampleErrorData
      sampleAmbient sampleOSEnv "/spool".toList rfl rfl (by decide),
   pglog_emit_log_hook_preserves_errno sampleSpoolGlobals 5 sampleErrorData
      sampleAmbient shortWriteEnv "/spool".toList rfl rfl (by decide)⟩

/-- C10 (counterexample): an invocation of the hook on a disabled
spooler whose spool-file pointer is still set enters with errno 0 and
returns with errno 1 — the early-exit fclose is outside the
save/restore window, so the hook does not preserve errno on every
invocation. -/
theorem pglog_emit_log_hook_clobbers_errno :
    (pglog_emit_log_hook
        { sampleSpoolGlobals with Pglog_spooling_enabled := false } 0
        sampleErrorData sampleAmbient sampleOSEnv).2 = 1
    ∧ (1 : Int) ≠ 0 := by
  constructor
  · rfl
  · decide

/-! ## Scan cursor (src/pglog.c lines 204-329)

pglogBeginForeignScan builds the catalogued file list and opens a COPY
reader on the FIRST file (festate->filenames[0]).  pglogIterateForeignScan
asks the current reader for one more record and stores it, or leaves the
slot empty — reporting exhaustion — when the reader has no more records;
it never touches the file index, never closes the reader and never opens
another file.  The unused helpers of src/pglog_helpers.c lines 299-338
(BeginNextCopy, isLastLogFile, GetNextRow) implement exactly the missing
advancement.  Rows are opaque; the COPY reader over a file is the list
of the records remaining in it. -/

structure CopyState (α : Type) where
  rows : List α

/-- NextCopyFrom of the COPY machinery as the scan uses it: the next
record of the reader, if any. -/
def NextCopyFrom {α : Type} (cs : CopyState α) : Option α × CopyState α :=
  match cs.rows with
  | [] => (none, cs)
  | r :: rest => (some r, ⟨rest⟩)

/-- PgLogExecutionState (src/pglog_helpers.h lines 45-52): the catalogued
files (each given by its record contents), the file index, and the
current reader. -/
structure PgLogExecutionState (α : Type) where
  filenames : List (List α)
  i : Nat
  cstate : CopyState α

/-- pglogBeginForeignScan (src/pglog.c lines 207-251): index 0 and a
reader over the first catalogued file. -/
def pglogBeginForeignScan {α : Type} (files : List (List α)) : PgLogExecutionState α :=
  { filenames := files, i := 0, cstate := ⟨files.headD []⟩ }

/-- pglogIterateForeignScan (src/pglog.c lines 258-295): one NextCopyFrom
on the current reader; a found row is stored, otherwise the slot stays
empty (scan exhaustion); the state is otherwise untouched. -/
def pglogIterateForeignScan {α : Type} (st : PgLogExecutionState α) :
    Option α × PgLogExecutionState α :=
  ((NextCopyFrom st.cstate).1, { st with cstate := (NextCopyFrom st.cstate).2 })

/-- isLastLogFile (src/pglog_helpers.c lines 329-338): false iff the
index is below MAX_LOG_FILES - 1 and the next slot of the filenames
array is non-NULL. -/
def isLastLogFile {α : Type} (st : PgLogExecutionState α) : Bool :=
  if st.i < MAX_LOG_FILES - 1 ∧ st.i + 1 < st.filenames.length then false else true

/-- The executor driving the scan: call pglogIterateForeignScan until it
reports exhaustion, collecting the returned rows (fuel-bounded). -/
def runScan {α : Type} : Nat → PgLogExecutionState α → List α
  | 0, _ => []
  | fuel + 1, st =>
    match pglogIterateForeignScan st with
    | (none, _) => []
    | (some r, st') => r :: runScan fuel st'

/-- C1 (code evaluated at the failing input): over the ordered file list
[A, B] with A = [1, 2] (2 records) and B = [3, 4, 5] (3 records), the
scan returns exactly A and then reports exhaustion — 2 rows, not the 5
the claim requires — even though at that point the state itself says,
via isLastLogFile, that another file remains; the cursor never closes
the reader, never advances the index and never opens B. -/
theorem scan_stops_after_first_file :
    runScan 10 (pglogBeginForeignScan [[1, 2], [3, 4, 5]]) = ([1, 2] : List Nat)
    ∧ runScan 10 (pglogBeginForeignScan [[1, 2], [3, 4, 5]]) ≠ ([1, 2, 3, 4, 5] : List Nat)
    ∧ isLastLogFile (pglogBeginForeignScan [([1, 2] : List Nat), [3, 4, 5]]) = false
    ∧ (pglogIterateForeignScan (pglogBeginForeignScan [([1, 2] : List Nat), [3, 4, 5]])).2.i = 0 := by
  refine ⟨rfl, by decide, by decide, rfl⟩

end Pglog
